import Mathlib

set_option maxHeartbeats 1000000

noncomputable section

open scoped Classical

namespace EZ

/-- Tolerance constant `smallNumber = 1e-6` set in `EZFusionAPI.__init__` (line 43). -/
def smallNumber : ℝ := 1 / 1000000

/-- Decimal literal bound to `_pi` in the source (line 39).  Note the code uses this
literal in the reflex test, not a math-library constant. -/
def piLit : ℝ := 3.1415926535897932384626433832795028841971693993751058209749445923078164062

/-- Geometry of a host `Point3D`: three real coordinates. -/
structure Point3 where
  x : ℝ
  y : ℝ
  z : ℝ

/-- A host sketch point: its geometry plus the mutable `isFixed` flag. -/
structure SkPoint where
  geo : Point3
  isFixed : Bool

/-- A Python number as it appears in a coordinate tuple: an `int` or a `float`
(floats modelled as exact rationals; the claims below depend only on order
comparisons and on indexing, not on binary rounding). -/
inductive PyNum where
  | int (n : ℤ)
  | float (q : ℚ)
  deriving DecidableEq

/-- An input object as `curveChain` / `Sketch_Get.point3d` receive it: a coordinate
tuple, a raw `Point3D`, an existing sketch-point handle, a string, or some other
unsupported object. -/
inductive PtObj where
  | tup (t : List PyNum)
  | p3 (p : Point3)
  | skp (id : Nat)
  | str (s : String)
  | other

/-- Handle to a created sketch line: host object id plus its two endpoint handles. -/
structure SkLine where
  lid : Nat
  startPt : Nat
  endPt : Nat

/-- Handle to a created sketch arc: host object id, endpoint and centre-point
handles, and the host-computed radius and arc length. -/
structure SkArc where
  aid : Nat
  startPt : Nat
  endPt : Nat
  centerPt : Nat
  radius : ℝ
  length : ℝ

/-- An entry of `crvList`: a created line, a created arc, or the placeholder string
`'arc'` that pass 1 leaves behind for pass 2. -/
inductive Curve where
  | line (l : SkLine)
  | arc (a : SkArc)
  | pending

/-- A constraint emission on the host sketch (`Sketch_Constrain.geometric`):
`coin` between two sketch points, `tangent` between two curve handles. -/
inductive Event where
  | coin (p q : Nat)
  | tangent (c1 c2 : Nat)

/-- The host sketch as the chain builder observes it: the table of sketch points, a
counter handing out curve ids, and the ordered list of emitted constraints. -/
structure Sketch where
  pts : List SkPoint
  nextCrv : Nat
  events : List Event

/-- The faults the modelled code can raise. -/
inductive Fault where
  | indexError
  | typeError
  | numbersRequired
  | arityError
  | typeMismatch
  | invalidItem
  | firstMustBeLine
  | nameError
  | attributeError
  deriving DecidableEq

/-- Default entry for out-of-range point-table reads (never reached on the runs the
theorems below describe). -/
def defaultPt : SkPoint := ⟨⟨0, 0, 0⟩, false⟩

/-- Geometry of the sketch point with the given handle. -/
def geoOf (σ : Sketch) (id : Nat) : Point3 := (σ.pts.getD id defaultPt).geo

/-- Read of the host `isFixed` flag. -/
def fixedOf (σ : Sketch) (id : Nat) : Bool := (σ.pts.getD id defaultPt).isFixed

/-- Host write `pt.isFixed = b`. -/
def setFixed (σ : Sketch) (id : Nat) (b : Bool) : Sketch :=
  { σ with pts := σ.pts.set id ⟨geoOf σ id, b⟩ }

/-- Host `sketchPoints.add`: a fresh sketch point at the given geometry. -/
def addPoint (σ : Sketch) (g : Point3) : Sketch × Nat :=
  ({ σ with pts := σ.pts ++ [⟨g, false⟩] }, σ.pts.length)

/-- Record a `coincident` constraint (`Sketch_Constrain.geometric(..., 'coin')`). -/
def addCoin (σ : Sketch) (p q : Nat) : Sketch :=
  { σ with events := σ.events ++ [Event.coin p q] }

/-- Record a `tangent` constraint (`Sketch_Constrain.geometric(..., 'tan')`). -/
def addTangent (σ : Sketch) (c1 c2 : Nat) : Sketch :=
  { σ with events := σ.events ++ [Event.tangent c1 c2] }

/-- Python indexing `t[v]` of a tuple of numbers by a number: a float index is a
`TypeError`; an int index uses negative wraparound and raises `IndexError` when out
of range. -/
def tupleIndex (t : List PyNum) (v : PyNum) : Except Fault PyNum :=
  match v with
  | PyNum.float _ => Except.error Fault.typeError
  | PyNum.int n =>
    let m : ℤ := if n < 0 then n + t.length else n
    if 0 ≤ m ∧ m < t.length then Except.ok (t.getD m.toNat (PyNum.int 0))
    else Except.error Fault.indexError

/-- The validation loop of `Sketch_Get.point3d` (lines 322-324): `for i in pt: if
not isinstance(pt[i], (int, float))` — it indexes the tuple by each element's
value.  An element fetched successfully is always a number here, so the only
possible outcomes are the indexing faults. -/
def point3dCheck (t : List PyNum) : List PyNum → Except Fault Unit
  | [] => Except.ok Unit.unit
  | v :: rest =>
    match tupleIndex t v with
    | Except.error e => Except.error e
    | Except.ok _ => point3dCheck t rest

/-- Real value of a Python number. -/
def toR : PyNum → ℝ
  | PyNum.int n => (n : ℝ)
  | PyNum.float q => (q : ℝ)

/-- `Sketch_Get.point3d` (lines 315-340): tuples run the (buggy) validation loop
and are then converted by arity; `Point3D` and sketch-point objects pass through to
their geometry; anything else raises. -/
def point3d (σ : Sketch) (pt : PtObj) : Except Fault Point3 :=
  match pt with
  | PtObj.tup t =>
    match point3dCheck t t with
    | Except.error e => Except.error e
    | Except.ok _ =>
      match t with
      | [a, b] => Except.ok ⟨toR a, toR b, 0⟩
      | [a, b, c] => Except.ok ⟨toR a, toR b, toR c⟩
      | _ => Except.error Fault.arityError
  | PtObj.p3 p => Except.ok p
  | PtObj.skp id => Except.ok (geoOf σ id)
  | PtObj.str _ => Except.error Fault.typeMismatch
  | PtObj.other => Except.error Fault.typeMismatch

/-- A 2D vector, as the tuples `Sketch_Vector` works on. -/
abbrev Vec := ℝ × ℝ

/-- `Sketch_Vector.magnitude`. -/
def magnitude (v : Vec) : ℝ := Real.sqrt (v.1 ^ 2 + v.2 ^ 2)

/-- `Sketch_Vector.unitVector`.  (Division by a zero magnitude yields 0 in ℝ where
Python raises `ZeroDivisionError`; theorems touching this path assume a nonzero
vector.) -/
def unitVector (v : Vec) : Vec := (v.1 / magnitude v, v.2 / magnitude v)

/-- `Sketch_Vector.perpendicularUnitVector`. -/
def perpendicularUnitVector (v : Vec) : Vec := (v.2 / magnitude v, -v.1 / magnitude v)

/-- `Sketch_Vector.dotProduct`. -/
def dotProduct (v1 v2 : Vec) : ℝ := v1.1 * v2.1 + v1.2 * v2.2

/-- `Sketch_Vector.crossProduct`. -/
def crossProduct (v1 v2 : Vec) : ℝ := v1.1 * v2.2 - v1.2 * v2.1

/-- `Sketch_Vector.scaleVector`. -/
def scaleVector (v : Vec) (s : ℝ) : Vec := (v.1 * s, v.2 * s)

/-- `Sketch_Vector.sweptAngle`: `acos(dot(v1,v2)/|v1|/|v2|)`. -/
def sweptAngle (v1 v2 : Vec) : ℝ :=
  Real.arccos (dotProduct v1 v2 / magnitude v1 / magnitude v2)

/-- `Sketch_Vector.arePerpendicular` (lines 492-503) — the comparison is
`dot <= smallNumber`, not `abs(dot) <= smallNumber`. -/
def arePerpendicular (v1 v2 : Vec) : Bool :=
  if dotProduct v1 v2 ≤ smallNumber then true else false

/-- `Sketch_Vector.areParallel` (lines 505-517) — the comparison is
`cross <= smallNumber`, not `abs(cross) <= smallNumber`. -/
def areParallel (v1 v2 : Vec) : Bool :=
  if crossProduct v1 v2 ≤ smallNumber then true else false

/-- `Sketch_Vector.fromPoints` after its `point3d` conversions (the builder always
passes sketch points or `Point3D`, for which `point3d` returns the geometry). -/
def fromPoints (p1 p2 : Point3) : Vec := (p2.x - p1.x, p2.y - p1.y)

/-- `Sketch_Vector.addVectorAndPoint` after its `point3d` conversion: copy the
point and shift x and y by the vector. -/
def addVectorAndPoint (v : Vec) (p : Point3) : Point3 := ⟨p.x + v.1, p.y + v.2, p.z⟩

/-- Squared Euclidean distance between two point geometries. -/
def distSq (p q : Point3) : ℝ := (q.x - p.x) ^ 2 + (q.y - p.y) ^ 2 + (q.z - p.z) ^ 2

/-- Modelled from the spec: host `Point3D.distanceTo`, the Euclidean distance
(spec §4.2 orders curve ends "by ascending distance"). -/
def distanceTo (p q : Point3) : ℝ := Real.sqrt (distSq p q)

/-- Modelled from the spec: host `Point3D.isEqualTo`, point equality within the
tolerance `smallNumber` (spec §3: "equality uses a tolerance"). -/
def isEqualTo (p q : Point3) : Bool := if distanceTo p q ≤ smallNumber then true else false

/-- `Sketch_Get.arePontsCoincident` (name as in the source, lines 244-252). -/
def arePontsCoincident (σ : Sketch) (pt1 pt2 : PtObj) : Except Fault Bool :=
  match point3d σ pt1 with
  | Except.error e => Except.error e
  | Except.ok p =>
    match point3d σ pt2 with
    | Except.error e => Except.error e
    | Except.ok q => Except.ok (isEqualTo p q)

/-- Loop body of `Sketch_Get.isPointInList` (the refs are sketch points, already
reduced to their geometry by `point3d`). -/
def isPointInListAux (σ : Sketch) (p : Point3) : List Nat → Bool
  | [] => false
  | id :: rest => if isEqualTo (geoOf σ id) p then true else isPointInListAux σ p rest

/-- `Sketch_Get.isPointInList` (lines 254-269). -/
def isPointInList (σ : Sketch) (pt : PtObj) (l : List Nat) : Except Fault Bool :=
  match point3d σ pt with
  | Except.error e => Except.error e
  | Except.ok p => Except.ok (if l.length = 0 then false else isPointInListAux σ p l)

/-- Start/end sketch-point handles of a curve, as `.startSketchPoint` /
`.endSketchPoint` read them; the `'arc'` placeholder string has no such attributes. -/
def crvEnds : Curve → Except Fault (Nat × Nat)
  | Curve.line l => Except.ok (l.startPt, l.endPt)
  | Curve.arc a => Except.ok (a.startPt, a.endPt)
  | Curve.pending => Except.error Fault.attributeError

/-- `Sketch_Get.orderCurveEndsByDist` with `returnSketchPoint=True` (lines 342-367):
the curve's two endpoint handles ordered by closeness to `pt`; comparison `d1 <= d2`. -/
def orderCurveEndsByDistSk (σ : Sketch) (crv : Curve) (pt : PtObj) :
    Except Fault (Nat × Nat) :=
  match point3d σ pt with
  | Except.error e => Except.error e
  | Except.ok p =>
    match crvEnds crv with
    | Except.error e => Except.error e
    | Except.ok (s, e) =>
      Except.ok
        (if distanceTo (geoOf σ s) p ≤ distanceTo (geoOf σ e) p then (s, e) else (e, s))

/-- `Sketch_Get.orderCurveEndsByDist` with `returnSketchPoint=False`: endpoint
geometries ordered by closeness to `pt`. -/
def orderCurveEndsByDist (σ : Sketch) (crv : Curve) (pt : PtObj) :
    Except Fault (Point3 × Point3) :=
  match point3d σ pt with
  | Except.error e => Except.error e
  | Except.ok p =>
    match crvEnds crv with
    | Except.error e => Except.error e
    | Except.ok (s, e) =>
      Except.ok
        (if distanceTo (geoOf σ s) p ≤ distanceTo (geoOf σ e) p
         then (geoOf σ s, geoOf σ e) else (geoOf σ e, geoOf σ s))

/-- `UtilityOperations.tuple2Point3d` (lines 1598-1615).  This helper iterates
element values correctly (unlike `Sketch_Get.point3d`); elements are always
numbers in the model, so only the arity fault remains. -/
def tuple2Point3d (t : List PyNum) : Except Fault Point3 :=
  match t with
  | [a, b] => Except.ok ⟨toR a, toR b, 0⟩
  | [a, b, c] => Except.ok ⟨toR a, toR b, toR c⟩
  | _ => Except.error Fault.arityError

/-- `UtilityOperations.handleObjectList2Points` (lines 1617-1621): convert tuple
entries to `Point3D`, leave every other entry untouched. -/
def handleObjectList2Points : List PtObj → Except Fault (List PtObj)
  | [] => Except.ok []
  | PtObj.tup t :: rest =>
    match tuple2Point3d t with
    | Except.error e => Except.error e
    | Except.ok p =>
      match handleObjectList2Points rest with
      | Except.error e => Except.error e
      | Except.ok r => Except.ok (PtObj.p3 p :: r)
  | o :: rest =>
    match handleObjectList2Points rest with
    | Except.error e => Except.error e
    | Except.ok r => Except.ok (o :: r)

/-- A generated chain command: line or arc. -/
inductive Cmd where
  | l
  | a
  deriving DecidableEq

/-- Test `type(x) is adsk.core.Point3D`. -/
def isP3 : PtObj → Bool
  | PtObj.p3 _ => true
  | _ => false

/-- Python `str.lower` on the marker strings: lower-case every character.  (Defined
by structural recursion over the character list so that concrete marker strings
evaluate; it agrees with the library `String.toLower`.) -/
def pyLower (s : String) : String := String.mk (s.data.map Char.toLower)

/-- One step of the parse loop of `curveChain` (lines 804-815) for the pair
`(pts[i], pts[i+1])`: what gets appended to `ptList` and to `cmdList`.  The `elif`
on line 812 retests `pts[i]` (not `pts[i+1]`), so the final `else` raising
'pointList item type is invalid' is unreachable. -/
def parseStep (a b : PtObj) : Except Fault (Option PtObj × Option Cmd) :=
  if isP3 a then
    match b with
    | PtObj.str s =>
      if pyLower s = ("a") ∨ pyLower s = ("arc")
      then Except.ok (some a, some Cmd.a)
      else Except.ok (some a, some Cmd.l)
    | _ =>
      if isP3 a then Except.ok (some a, some Cmd.l)
      else Except.error Fault.invalidItem
  else Except.ok (none, none)

/-- The parse loop of `curveChain`, folded over the adjacent pairs of `pts`. -/
def parseScan : List (PtObj × PtObj) → List PtObj → List Cmd →
    Except Fault (List PtObj × List Cmd)
  | [], ps, cs => Except.ok (ps, cs)
  | (a, b) :: rest, ps, cs =>
    match parseStep a b with
    | Except.error e => Except.error e
    | Except.ok (op, oc) =>
      parseScan rest (ps ++ op.toList) (cs ++ oc.toList)

/-- The parse phase of `curveChain` (lines 799-825): scan the pairs, append the
trailing point when it is a `Point3D` (reading `pts[-1]` raises `IndexError` on an
empty list), then, when `close` is set, append the first input item and a closing
command taken from `close` (`'a'` exactly when `close` equals `'a'` or `'arc'`). -/
def parsePhase (pts : List PtObj) (close : Option String) :
    Except Fault (List PtObj × List Cmd) :=
  match pts.getLast? with
  | none => Except.error Fault.indexError
  | some lastItem =>
    match parseScan (pts.zip pts.tail) [] [] with
    | Except.error e => Except.error e
    | Except.ok (ps, cs) =>
      let ps1 := if isP3 lastItem then ps ++ [lastItem] else ps
      match close with
      | none => Except.ok (ps1, cs)
      | some c =>
        match pts.head? with
        | none => Except.error Fault.indexError
        | some first =>
          Except.ok (ps1 ++ [first], cs ++ [if c = ("a") ∨ c = ("arc") then Cmd.a else Cmd.l])

/-- State carried by pass 1 of `curveChain`: the sketch, `crvList`, `fixedPtList`,
and the `prevLine` local. -/
structure P1 where
  σ : Sketch
  crvs : List Curve
  fixedPts : List Nat
  prevLine : Option SkLine

/-- `Sketch_Create.line` as pass 1 calls it: tuple endpoints go through the (buggy)
`point3d` first (lines 773-777); then host `addByTwoPoints`, which makes a fresh
sketch point for a `Point3D` argument and attaches to a sketch-point argument. -/
def lineEndpointArg (σ : Sketch) (pt : PtObj) : Except Fault PtObj :=
  match pt with
  | PtObj.tup t =>
    match point3d σ (PtObj.tup t) with
    | Except.error e => Except.error e
    | Except.ok p => Except.ok (PtObj.p3 p)
  | p => Except.ok p

/-- Host side of `addByTwoPoints` for one endpoint argument. -/
def resolveLinePt (σ : Sketch) (pt : PtObj) : Except Fault (Sketch × Nat) :=
  match pt with
  | PtObj.p3 p => Except.ok (addPoint σ p)
  | PtObj.skp id => Except.ok (σ, id)
  | _ => Except.error Fault.typeError

/-- `Sketch_Create.line` (lines 762-784) restricted to what `curveChain` uses
(`construction` and `fixed` both false). -/
def lineFn (σ : Sketch) (pt1 pt2 : PtObj) : Except Fault (Sketch × SkLine) :=
  match lineEndpointArg σ pt1 with
  | Except.error e => Except.error e
  | Except.ok q1 =>
    match lineEndpointArg σ pt2 with
    | Except.error e => Except.error e
    | Except.ok q2 =>
      match resolveLinePt σ q1 with
      | Except.error e => Except.error e
      | Except.ok (σ1, s) =>
        match resolveLinePt σ1 q2 with
        | Except.error e => Except.error e
        | Except.ok (σ2, t) =>
          Except.ok ({ σ2 with nextCrv := σ2.nextCrv + 1 }, ⟨σ2.nextCrv, s, t⟩)

/-- `Sketch_Create.point` as `curveChain` calls it (a single positional argument,
which must be a `Point3D` there). -/
def pointFn (σ : Sketch) (pt : PtObj) : Except Fault (Sketch × Nat) :=
  match pt with
  | PtObj.p3 p => Except.ok (addPoint σ p)
  | _ => Except.error Fault.typeError

/-- Lines 844-845: `if i > 0 and arePontsCoincident(line.startSketchPoint,
prevLine.endSketchPoint)`, emitting the coincident constraint.  `prevLine` unbound
(`None`) with `i > 0` cannot occur once the first command is a line. -/
def coinWithPrev (σ : Sketch) (i : Nat) (ln : SkLine) (prev : Option SkLine) :
    Except Fault Sketch :=
  if 0 < i then
    match prev with
    | none => Except.error Fault.attributeError
    | some pl =>
      match arePontsCoincident σ (PtObj.skp ln.startPt) (PtObj.skp pl.endPt) with
      | Except.error e => Except.error e
      | Except.ok b => Except.ok (if b then addCoin σ ln.startPt pl.endPt else σ)
  else Except.ok σ

/-- Lines 848-851: when the current line is the last command and `close` is set,
emit the closing coincident constraint between the nearest-to-`ptList[0]` ends of
the new line and of `crvList[0]`. -/
def closingCoin (close : Option String) (ptl : List PtObj) (i : Nat) (σ : Sketch)
    (ln : SkLine) (crvs : List Curve) : Except Fault Sketch :=
  if i = ptl.length - 2 ∧ close ≠ none then
    match ptl.head? with
    | none => Except.error Fault.indexError
    | some pt0 =>
      match orderCurveEndsByDistSk σ (Curve.line ln) pt0 with
      | Except.error e => Except.error e
      | Except.ok (int1, _) =>
        match crvs.head? with
        | none => Except.error Fault.indexError
        | some c0 =>
          match orderCurveEndsByDistSk σ c0 pt0 with
          | Except.error e => Except.error e
          | Except.ok (int2, _) => Except.ok (addCoin σ int1 int2)
  else Except.ok σ

/-- Pass 1 of `curveChain`, one command (lines 833-853).  A line command creates
the line, temporarily fixes endpoints not yet seen, emits the coincidence with the
previous line's end, and (for a closing last command) the closing coincidence; an
arc command only appends the `'arc'` placeholder. -/
def pass1Step (close : Option String) (ptl : List PtObj) (i : Nat) (st : P1) :
    Cmd → Except Fault P1
  | Cmd.a => Except.ok { st with crvs := st.crvs ++ [Curve.pending] }
  | Cmd.l =>
    match ptl.get? i with
    | none => Except.error Fault.indexError
    | some pt1 =>
      match ptl.get? (i + 1) with
      | none => Except.error Fault.indexError
      | some pt2 =>
        match lineFn st.σ pt1 pt2 with
        | Except.error e => Except.error e
        | Except.ok (σ1, ln) =>
          match isPointInList σ1 pt1 st.fixedPts with
          | Except.error e => Except.error e
          | Except.ok b1 =>
            let σ2 := if b1 then σ1 else setFixed σ1 ln.startPt true
            let f1 := if b1 then st.fixedPts else st.fixedPts ++ [ln.startPt]
            match isPointInList σ2 pt2 f1 with
            | Except.error e => Except.error e
            | Except.ok b2 =>
              let σ3 := if b2 then σ2 else setFixed σ2 ln.endPt true
              let f2 := if b2 then f1 else f1 ++ [ln.endPt]
              match coinWithPrev σ3 i ln st.prevLine with
              | Except.error e => Except.error e
              | Except.ok σ4 =>
                let crvs1 := st.crvs ++ [Curve.line ln]
                match closingCoin close ptl i σ4 ln crvs1 with
                | Except.error e => Except.error e
                | Except.ok σ5 =>
                  Except.ok ⟨σ5, crvs1, f2, some ln⟩

/-- Pass 1 of `curveChain`: `for i, cmd in enumerate(cmdList)`. -/
def pass1Loop (close : Option String) (ptl : List PtObj) :
    List Cmd → Nat → P1 → Except Fault P1
  | [], _, st => Except.ok st
  | c :: rest, i, st =>
    match pass1Step close ptl i st c with
    | Except.error e => Except.error e
    | Except.ok st1 => pass1Loop close ptl rest (i + 1) st1

/-- State carried by pass 2 of `curveChain`: the sketch, the (mutating) `crvList`,
`fixedPtList`, and the leaked Python local `line` last bound by an
arc-after-line iteration. -/
structure P2 where
  σ : Sketch
  crvs : List Curve
  fixedPts : List Nat
  lineVar : Option SkLine

/-- The arc-fit oracle: what the host's `addByThreePoints` computes for (start,
along, end) — centre geometry, radius, arc length.  Modelled from the spec: the
host geometry kernel is an external collaborator and the builder treats these
values as opaque handle attributes (spec §6). -/
def ArcFit : Type := Point3 → Point3 → Point3 → Point3 × ℝ × ℝ

/-- Host `sketchArcs.addByThreePoints` as `Sketch_Create.arc(..., '3p')` reaches it
here: start and end are existing sketch points, the middle guess is a raw
`Point3D`; a fresh centre sketch point is created from the fit result. -/
def addArcByThreePoints (fit : ArcFit) (σ : Sketch) (sId : Nat) (guess : Point3)
    (eId : Nat) : Sketch × SkArc :=
  let f := fit (geoOf σ sId) guess (geoOf σ eId)
  ({ σ with pts := σ.pts ++ [⟨f.1, false⟩], nextCrv := σ.nextCrv + 1 },
   ⟨σ.nextCrv, sId, eId, σ.pts.length, f.2.1, f.2.2⟩)

/-- End-point resolution shared verbatim by the two arc branches (lines 871-886 and
937-953).  `st.lineVar` is the Python local `line`: in the last-command branch with
a non-arc close, the source sets `line.endSketchPoint.isFixed = True` while
appending `endPoint` (not `line.endSketchPoint`) to `fixedPtList`. -/
def resolveEndPoint (close : Option String) (ptl : List PtObj) (i : Nat) (st : P2) :
    Except Fault (P2 × Nat) :=
  if i = st.crvs.length - 1 then
    if close = some ("arc") ∨ close = some ("a") then
      match st.crvs.head? with
      | none => Except.error Fault.indexError
      | some c0 =>
        match crvEnds c0 with
        | Except.error e => Except.error e
        | Except.ok (s0, _) => Except.ok (st, s0)
    else
      match ptl.getLast? with
      | none => Except.error Fault.indexError
      | some lastObj =>
        match pointFn st.σ lastObj with
        | Except.error e => Except.error e
        | Except.ok (σ1, endId) =>
          match isPointInList σ1 (PtObj.skp endId) st.fixedPts with
          | Except.error e => Except.error e
          | Except.ok b =>
            if b then Except.ok ({ st with σ := σ1 }, endId)
            else
              match st.lineVar with
              | none => Except.error Fault.nameError
              | some l =>
                Except.ok
                  ({ st with
                      σ := setFixed σ1 l.endPt true
                      fixedPts := st.fixedPts ++ [endId] }, endId)
  else
    match st.crvs.get? (i + 1) with
    | none => Except.error Fault.indexError
    | some (Curve.line l) => Except.ok (st, l.startPt)
    | some _ =>
      match ptl.get? (i + 1) with
      | none => Except.error Fault.indexError
      | some nxt =>
        match pointFn st.σ nxt with
        | Except.error e => Except.error e
        | Except.ok (σ1, endId) =>
          match isPointInList σ1 (PtObj.skp endId) st.fixedPts with
          | Except.error e => Except.error e
          | Except.ok b =>
            if b then Except.ok ({ st with σ := σ1 }, endId)
            else
              Except.ok
                ({ st with
                    σ := setFixed σ1 endId true
                    fixedPts := st.fixedPts ++ [endId] }, endId)

/-- The tangent guess point for an arc that follows a line (lines 861-868):
`lineStart + unitVector(vect) * (|vect| + smallNumber*100)`, where `vect` points
from the far endpoint (`lineStart`) to the near one (`lineEnd`). -/
def arcAfterLineGuess (σ : Sketch) (lineStartId lineEndId : Nat) : Point3 :=
  let vect := fromPoints (geoOf σ lineStartId) (geoOf σ lineEndId)
  let unitVect := unitVector vect
  let len := magnitude vect + smallNumber * 100
  let scaledVect := scaleVector unitVect len
  addVectorAndPoint scaledVect (geoOf σ lineStartId)

/-- Arc following a line (lines 856-891). -/
def arcAfterLineStep (fit : ArcFit) (close : Option String) (ptl : List PtObj)
    (i : Nat) (l : SkLine) (st : P2) : Except Fault P2 :=
  let st1 : P2 := { st with lineVar := some l }
  match ptl.get? i with
  | none => Except.error Fault.indexError
  | some ipt =>
    match orderCurveEndsByDistSk st1.σ (Curve.line l) ipt with
    | Except.error e => Except.error e
    | Except.ok (lineEnd, lineStart) =>
      let guessPointOnAcr := arcAfterLineGuess st1.σ lineStart lineEnd
      match resolveEndPoint close ptl i st1 with
      | Except.error e => Except.error e
      | Except.ok (st2, endId) =>
        let r := addArcByThreePoints fit st2.σ lineEnd guessPointOnAcr endId
        Except.ok
          { st2 with
              σ := addTangent r.1 r.2.aid l.lid
              crvs := st2.crvs.set i (Curve.arc r.2) }

/-- Reflex test for the previous arc (line 907): swept more than half of its
circle, `length / (pi * radius * 2) > 0.5`, using the source's `_pi` literal. -/
def revFlag (a : SkArc) : Bool :=
  if a.length / (piLit * a.radius * 2) > 0.5 then true else false

/-- Candidate guess points and selection for an arc following an arc (lines
897-935): offset the near endpoint by `smallNumber*100` along plus or minus the
perpendicular unit vector of the centre-to-end chord, then choose by comparing
swept angles, direction depending on the reflex flag. -/
def arcAfterArcGuess (σ : Sketch) (a : SkArc) (prevEndPt prevStartPt : Nat) :
    Point3 :=
  let startVect := fromPoints (geoOf σ a.centerPt) (geoOf σ prevStartPt)
  let endVect := fromPoints (geoOf σ a.centerPt) (geoOf σ prevEndPt)
  let rev := revFlag a
  let perpVect1 := scaleVector (perpendicularUnitVector endVect) (smallNumber * 100)
  let guessPointOnAcr1 := addVectorAndPoint perpVect1 (geoOf σ prevEndPt)
  let perpVect2 :=
    scaleVector (scaleVector (perpendicularUnitVector endVect) (-1)) (smallNumber * 100)
  let guessPointOnAcr2 := addVectorAndPoint perpVect2 (geoOf σ prevEndPt)
  let gVect1 := fromPoints (geoOf σ a.centerPt) guessPointOnAcr1
  let A := sweptAngle startVect endVect
  let A1 := sweptAngle startVect gVect1
  if rev = true then (if A1 < A then guessPointOnAcr1 else guessPointOnAcr2)
  else (if A1 > A then guessPointOnAcr1 else guessPointOnAcr2)

/-- Arc following an arc (lines 892-959). -/
def arcAfterArcStep (fit : ArcFit) (close : Option String) (ptl : List PtObj)
    (i : Nat) (a : SkArc) (st : P2) : Except Fault P2 :=
  match ptl.get? i with
  | none => Except.error Fault.indexError
  | some ipt =>
    match orderCurveEndsByDistSk st.σ (Curve.arc a) ipt with
    | Except.error e => Except.error e
    | Except.ok (prevEndPt, prevStartPt) =>
      let guessPointOnAcr := arcAfterArcGuess st.σ a prevEndPt prevStartPt
      match resolveEndPoint close ptl i st with
      | Except.error e => Except.error e
      | Except.ok (st2, endId) =>
        let r := addArcByThreePoints fit st2.σ prevEndPt guessPointOnAcr endId
        Except.ok
          { st2 with
              σ := addTangent r.1 r.2.aid a.aid
              crvs := st2.crvs.set i (Curve.arc r.2) }

/-- Pass 2 of `curveChain`, one index (lines 854-959): replace the `'arc'`
placeholder at `i` using the neighbouring curves.  A pending placeholder at index 0
is unreachable (the first command is forced to be a line) and is modelled as the
fault Python's attribute access would raise. -/
def pass2Step (fit : ArcFit) (close : Option String) (ptl : List PtObj) (st : P2)
    (i : Nat) : Except Fault P2 :=
  match st.crvs.get? i with
  | none => Except.error Fault.indexError
  | some (Curve.line _) => Except.ok st
  | some (Curve.arc _) => Except.ok st
  | some Curve.pending =>
    if 0 < i then
      match st.crvs.get? (i - 1) with
      | some (Curve.line l) => arcAfterLineStep fit close ptl i l st
      | some (Curve.arc a) => arcAfterArcStep fit close ptl i a st
      | _ => Except.error Fault.attributeError
    else Except.error Fault.attributeError

/-- Pass 2 of `curveChain`: `for i, crv in enumerate(crvList)`. -/
def pass2Loop (fit : ArcFit) (close : Option String) (ptl : List PtObj) :
    List Nat → P2 → Except Fault P2
  | [], st => Except.ok st
  | i :: rest, st =>
    match pass2Step fit close ptl st i with
    | Except.error e => Except.error e
    | Except.ok st1 => pass2Loop fit close ptl rest st1

/-- The result of `curveChain`: the created curves plus the final sketch, or the
raised fault.  Parse-time and precondition faults happen before any sink effect, so
the sketch attached to them is the unchanged input sketch; for faults raised during
the build the partially populated host sketch is not reconstructed here (no claim
depends on it). -/
inductive CCOut where
  | ok (crvs : List Curve) (σ : Sketch)
  | err (f : Fault) (σ : Sketch)

/-- `Sketch_Create.curveChain` (lines 786-964): normalize the inputs, parse
`ptList`/`cmdList`, require the first command to be a line, run pass 1 (lines and
placeholders), pass 2 (arcs), then clear the `isFixed` flag of every point recorded
in `fixedPtList` and return the curves. -/
def curveChain (σ0 : Sketch) (pointList : List PtObj) (close : Option String)
    (fit : ArcFit) : CCOut :=
  match handleObjectList2Points pointList with
  | Except.error e => CCOut.err e σ0
  | Except.ok pts =>
    match parsePhase pts close with
    | Except.error e => CCOut.err e σ0
    | Except.ok (ptl, cmds) =>
      match cmds.head? with
      | none => CCOut.err Fault.indexError σ0
      | some c0 =>
        if c0 ≠ Cmd.l then CCOut.err Fault.firstMustBeLine σ0
        else
          match pass1Loop close ptl cmds 0 ⟨σ0, [], [], none⟩ with
          | Except.error e => CCOut.err e σ0
          | Except.ok st1 =>
            match pass2Loop fit close ptl (List.range st1.crvs.length)
                ⟨st1.σ, st1.crvs, st1.fixedPts, none⟩ with
            | Except.error e => CCOut.err e σ0
            | Except.ok st2 =>
              CCOut.ok st2.crvs
                (st2.fixedPts.foldl (fun σ id => setFixed σ id false) st2.σ)

/-- The empty host sketch. -/
def emptySketch : Sketch := ⟨[], 0, []⟩

/-- A constant arc-fit oracle used for the concrete witness runs (the claims hold
for every oracle; the witnesses pick this one). -/
def fitConst : ArcFit := fun _ _ _ => (⟨0, 0, 0⟩, 1, 1)

/-- Witness configuration for the arc-after-arc claim: a sketch holding a previous
arc from `(1,0)` to `(0,1)` with centre `(0,0)`. -/
def sigC2 : Sketch :=
  ⟨[⟨⟨1, 0, 0⟩, false⟩, ⟨⟨0, 1, 0⟩, false⟩, ⟨⟨0, 0, 0⟩, false⟩], 10, []⟩

/-- The previous arc for the arc-after-arc witness. -/
def aC2 : SkArc := ⟨0, 0, 1, 2, 1, 1⟩

/-- Pass-2 state for the arc-after-arc witness. -/
def stC2 : P2 := ⟨sigC2, [Curve.arc aC2, Curve.pending, Curve.line ⟨9, 7, 8⟩], [], none⟩

/-- Point list for the arc-after-arc witness. -/
def ptlC2 : List PtObj := [PtObj.p3 ⟨1, 0, 0⟩, PtObj.p3 ⟨0, 1, 0⟩, PtObj.p3 ⟨9, 9, 0⟩]

/-- Result state for the arc-after-arc witness. -/
def stC2' : P2 :=
  ⟨⟨[⟨⟨1, 0, 0⟩, false⟩, ⟨⟨0, 1, 0⟩, false⟩, ⟨⟨0, 0, 0⟩, false⟩, ⟨⟨0, 0, 0⟩, false⟩], 11,
    [Event.tangent 10 0]⟩,
   [Curve.arc aC2, Curve.arc ⟨10, 1, 7, 3, 1, 1⟩, Curve.line ⟨9, 7, 8⟩], [], none⟩

/-- Witness configuration for the arc-after-line claim: the sketch after pass 1 of
`curveChain([(0,0),(10,0),'a',(20,10)])`. -/
def sigC1 : Sketch := ⟨[⟨⟨0, 0, 0⟩, true⟩, ⟨⟨10, 0, 0⟩, true⟩], 1, []⟩

/-- Pass-2 state for the arc-after-line witness. -/
def stC1 : P2 := ⟨sigC1, [Curve.line ⟨0, 0, 1⟩, Curve.pending], [0, 1], none⟩

/-- Point list for the arc-after-line witness. -/
def ptlC1 : List PtObj := [PtObj.p3 ⟨0, 0, 0⟩, PtObj.p3 ⟨10, 0, 0⟩, PtObj.p3 ⟨20, 10, 0⟩]

/-- Result state for the arc-after-line witness. -/
def stC1' : P2 :=
  ⟨⟨[⟨⟨0, 0, 0⟩, true⟩, ⟨⟨10, 0, 0⟩, true⟩, ⟨⟨20, 10, 0⟩, false⟩, ⟨⟨0, 0, 0⟩, false⟩], 2,
    [Event.tangent 1 0]⟩,
   [Curve.line ⟨0, 0, 1⟩, Curve.arc ⟨1, 1, 2, 3, 1, 1⟩], [0, 1, 2], some ⟨0, 0, 1⟩⟩

theorem distSq_nonneg (p q : Point3) : 0 ≤ distSq p q := by
  unfold distSq
  positivity

theorem distanceTo_le_distanceTo (p q r s : Point3) :
    (distanceTo p q ≤ distanceTo r s) ↔ distSq p q ≤ distSq r s :=
  Real.sqrt_le_sqrt_iff (distSq_nonneg r s)

theorem distanceTo_le_smallNumber (p q : Point3) :
    (distanceTo p q ≤ smallNumber) ↔ distSq p q ≤ smallNumber ^ 2 :=
  Real.sqrt_le_left (by norm_num [smallNumber])

theorem isEqualTo_eval (p q : Point3) :
    isEqualTo p q = (if distSq p q ≤ smallNumber ^ 2 then true else false) := by
  unfold isEqualTo
  exact if_congr (distanceTo_le_smallNumber p q) rfl rfl

theorem orderCurveEndsByDistSk_eval (σ : Sketch) (crv : Curve) (pt : PtObj)
    (gp : Point3) (s e : Nat) (hp : point3d σ pt = Except.ok gp)
    (he : crvEnds crv = Except.ok (s, e)) :
    orderCurveEndsByDistSk σ crv pt =
      Except.ok
        (if distSq (geoOf σ s) gp ≤ distSq (geoOf σ e) gp then (s, e) else (e, s)) := by
  unfold orderCurveEndsByDistSk
  rw [hp, he]
  exact congrArg Except.ok (if_congr (distanceTo_le_distanceTo _ _ _ _) rfl rfl)

theorem orderCurveEndsByDistSk_line_p3 (σ : Sketch) (lid : Nat) (s e : Nat)
    (gp : Point3) :
    orderCurveEndsByDistSk σ (Curve.line ⟨lid, s, e⟩) (PtObj.p3 gp) =
      Except.ok
        (if distSq (geoOf σ s) gp ≤ distSq (geoOf σ e) gp then (s, e) else (e, s)) :=
  orderCurveEndsByDistSk_eval σ _ _ gp s e rfl rfl

theorem orderCurveEndsByDistSk_arc_p3 (σ : Sketch) (aid : Nat) (s e c : Nat)
    (radius len : ℝ) (gp : Point3) :
    orderCurveEndsByDistSk σ (Curve.arc ⟨aid, s, e, c, radius, len⟩) (PtObj.p3 gp) =
      Except.ok
        (if distSq (geoOf σ s) gp ≤ distSq (geoOf σ e) gp then (s, e) else (e, s)) :=
  orderCurveEndsByDistSk_eval σ _ _ gp s e rfl rfl

theorem orderCurveEndsByDist_eval (σ : Sketch) (crv : Curve) (pt : PtObj)
    (gp : Point3) (s e : Nat) (hp : point3d σ pt = Except.ok gp)
    (he : crvEnds crv = Except.ok (s, e)) :
    orderCurveEndsByDist σ crv pt =
      Except.ok
        (if distSq (geoOf σ s) gp ≤ distSq (geoOf σ e) gp
         then (geoOf σ s, geoOf σ e) else (geoOf σ e, geoOf σ s)) := by
  unfold orderCurveEndsByDist
  rw [hp, he]
  exact congrArg Except.ok (if_congr (distanceTo_le_distanceTo _ _ _ _) rfl rfl)

/-- C7: `arePerpendicular(v1,v2)` returns True exactly when
`dotProduct(v1,v2) <= smallNumber` (1e-6), and `areParallel(v1,v2)` returns True
exactly when `crossProduct(v1,v2) <= smallNumber`; in particular both return True
for every strictly negative dot/cross product, so vector pairs that are not
perpendicular (resp. not parallel) satisfy the check whenever the product is
negative. -/
theorem claim_C7 (v1 v2 : Vec) :
    (arePerpendicular v1 v2 = true ↔ dotProduct v1 v2 ≤ smallNumber) ∧
    (areParallel v1 v2 = true ↔ crossProduct v1 v2 ≤ smallNumber) ∧
    (dotProduct v1 v2 < 0 → arePerpendicular v1 v2 = true) ∧
    (crossProduct v1 v2 < 0 → areParallel v1 v2 = true) ∧
    smallNumber = 1 / 1000000 := by
  have hd : arePerpendicular v1 v2 = true ↔ dotProduct v1 v2 ≤ smallNumber := by
    unfold arePerpendicular
    by_cases h : dotProduct v1 v2 ≤ smallNumber <;> simp [h]
  have hc : areParallel v1 v2 = true ↔ crossProduct v1 v2 ≤ smallNumber := by
    unfold areParallel
    by_cases h : crossProduct v1 v2 ≤ smallNumber <;> simp [h]
  refine ⟨hd, hc, fun h => hd.mpr ?_, fun h => hc.mpr ?_, rfl⟩
  · exact le_trans h.le (by norm_num [smallNumber])
  · exact le_trans h.le (by norm_num [smallNumber])

/-- Witness for C7: `(1,0)` and `(-1,-1)` are neither perpendicular nor parallel
(dot and cross are both `-1`), yet both checks accept them. -/
theorem claim_C7_witness :
    arePerpendicular (1, 0) (-1, -1) = true ∧ dotProduct (1, 0) (-1, -1) ≠ 0 ∧
    areParallel (1, 0) (-1, -1) = true ∧ crossProduct (1, 0) (-1, -1) ≠ 0 := by
  have h := claim_C7 (1, 0) (-1, -1)
  refine ⟨h.2.2.1 ?_, ?_, h.2.2.2.1 ?_, ?_⟩ <;> norm_num [dotProduct, crossProduct]

theorem point3dCheck_ok_valid (t : List PyNum) :
    ∀ l, point3dCheck t l = Except.ok Unit.unit →
      ∀ v ∈ l, ∃ w, tupleIndex t v = Except.ok w := by
  intro l
  induction l with
  | nil => intro _ v hv; cases hv
  | cons v rest ih =>
    intro h w hw
    unfold point3dCheck at h
    cases htv : tupleIndex t v with
    | error e => rw [htv] at h; cases h
    | ok u =>
      rw [htv] at h
      rcases List.mem_cons.mp hw with hw | hw
      · exact ⟨u, hw ▸ htv⟩
      · exact ih h w hw

/-- C9: `Sketch_Get.point3d` is not total on well-formed numeric tuples: its
validation loop indexes the tuple by each element's value, so `point3d((3,4))`
raises `IndexError` and `point3d((0.5,1.5))` raises `TypeError`; only tuples whose
element values happen to be valid indices into the tuple pass the validation loop. -/
theorem claim_C9 (σ : Sketch) :
    point3d σ (PtObj.tup [PyNum.int 3, PyNum.int 4]) = Except.error Fault.indexError ∧
    point3d σ (PtObj.tup [PyNum.float (1 / 2), PyNum.float (3 / 2)]) =
      Except.error Fault.typeError ∧
    (∀ t, point3dCheck t t = Except.ok Unit.unit →
      ∀ v ∈ t, ∃ w, tupleIndex t v = Except.ok w) ∧
    (∀ t q, tupleIndex t (PyNum.float q) = Except.error Fault.typeError) ∧
    (∀ t (n : ℤ), (∃ w, tupleIndex t (PyNum.int n) = Except.ok w) ↔
      (0 ≤ (if n < 0 then n + t.length else n) ∧
        (if n < 0 then n + t.length else n) < t.length)) := by
  refine ⟨rfl, rfl, fun t => point3dCheck_ok_valid t t, fun t q => rfl, fun t n => ?_⟩
  constructor
  · intro hex
    obtain ⟨w, hw⟩ := hex
    simp only [tupleIndex] at hw
    by_cases h : (0 ≤ if n < 0 then n + (t.length : ℤ) else n) ∧
        (if n < 0 then n + (t.length : ℤ) else n) < t.length
    · exact h
    · rw [if_neg h] at hw
      cases hw
  · intro h
    have hgo : tupleIndex t (PyNum.int n) =
        Except.ok (t.getD ((if n < 0 then n + (t.length : ℤ) else n)).toNat (PyNum.int 0)) := by
      simp only [tupleIndex]
      rw [if_pos h]
    exact ⟨_, hgo⟩

/-- Witness for C9: the concrete faults, and a tuple whose element values are
valid indices passing the validation loop. -/
theorem claim_C9_witness :
    point3d emptySketch (PtObj.tup [PyNum.int 3, PyNum.int 4]) =
      Except.error Fault.indexError ∧
    point3d emptySketch (PtObj.tup [PyNum.float (1 / 2), PyNum.float (3 / 2)]) =
      Except.error Fault.typeError ∧
    (∃ w, tupleIndex [PyNum.int 0, PyNum.int 1] (PyNum.int 0) = Except.ok w) := by
  have h := claim_C9 emptySketch
  exact ⟨h.1, h.2.1, h.2.2.1 [PyNum.int 0, PyNum.int 1] rfl (PyNum.int 0) (by simp)⟩

/-- C6: for every curve `crv` and reference point `pt`, `orderCurveEndsByDist`
returns `crv`'s two endpoints ordered by ascending distance to `pt`, and when the
two distances are equal the start point is returned first (the comparison is
`d1 <= d2`).  Stated for both return modes of the source function. -/
theorem claim_C6 (σ : Sketch) (crv : Curve) (pt : PtObj) (gp : Point3) (s e : Nat)
    (hp : point3d σ pt = Except.ok gp) (he : crvEnds crv = Except.ok (s, e)) :
    ∃ a b : Nat,
      orderCurveEndsByDistSk σ crv pt = Except.ok (a, b) ∧
      orderCurveEndsByDist σ crv pt = Except.ok (geoOf σ a, geoOf σ b) ∧
      distanceTo (geoOf σ a) gp ≤ distanceTo (geoOf σ b) gp ∧
      ((a, b) = (s, e) ∨ (a, b) = (e, s)) ∧
      (distanceTo (geoOf σ s) gp = distanceTo (geoOf σ e) gp → (a, b) = (s, e)) := by
  rw [orderCurveEndsByDistSk_eval σ crv pt gp s e hp he,
    orderCurveEndsByDist_eval σ crv pt gp s e hp he]
  by_cases h : distSq (geoOf σ s) gp ≤ distSq (geoOf σ e) gp
  · rw [if_pos h, if_pos h]
    exact ⟨s, e, rfl, rfl, (distanceTo_le_distanceTo _ _ _ _).mpr h, Or.inl rfl,
      fun _ => rfl⟩
  · rw [if_neg h, if_neg h]
    refine ⟨e, s, rfl, rfl, (distanceTo_le_distanceTo _ _ _ _).mpr (not_le.mp h).le,
      Or.inr rfl, fun heq => absurd ?_ h⟩
    exact le_of_eq
      ((Real.sqrt_inj (distSq_nonneg (geoOf σ s) gp) (distSq_nonneg (geoOf σ e) gp)).mp heq)

/-- Witness for C6, at a degenerate curve whose two ends coincide, exercising the
tie-break: the start end is returned first. -/
theorem claim_C6_witness :
    ∃ a b : Nat,
      orderCurveEndsByDistSk ⟨[⟨⟨0, 0, 0⟩, false⟩, ⟨⟨0, 0, 0⟩, false⟩], 0, []⟩
          (Curve.line ⟨0, 0, 1⟩) (PtObj.p3 ⟨5, 5, 0⟩) = Except.ok (a, b) ∧
      orderCurveEndsByDist ⟨[⟨⟨0, 0, 0⟩, false⟩, ⟨⟨0, 0, 0⟩, false⟩], 0, []⟩
          (Curve.line ⟨0, 0, 1⟩) (PtObj.p3 ⟨5, 5, 0⟩) =
        Except.ok
          (geoOf ⟨[⟨⟨0, 0, 0⟩, false⟩, ⟨⟨0, 0, 0⟩, false⟩], 0, []⟩ a,
           geoOf ⟨[⟨⟨0, 0, 0⟩, false⟩, ⟨⟨0, 0, 0⟩, false⟩], 0, []⟩ b) ∧
      distanceTo (geoOf ⟨[⟨⟨0, 0, 0⟩, false⟩, ⟨⟨0, 0, 0⟩, false⟩], 0, []⟩ a) ⟨5, 5, 0⟩ ≤
        distanceTo (geoOf ⟨[⟨⟨0, 0, 0⟩, false⟩, ⟨⟨0, 0, 0⟩, false⟩], 0, []⟩ b) ⟨5, 5, 0⟩ ∧
      ((a, b) = (0, 1) ∨ (a, b) = (1, 0)) ∧
      (distanceTo (geoOf ⟨[⟨⟨0, 0, 0⟩, false⟩, ⟨⟨0, 0, 0⟩, false⟩], 0, []⟩ 0) ⟨5, 5, 0⟩ =
          distanceTo (geoOf ⟨[⟨⟨0, 0, 0⟩, false⟩, ⟨⟨0, 0, 0⟩, false⟩], 0, []⟩ 1) ⟨5, 5, 0⟩ →
        (a, b) = (0, 1)) :=
  claim_C6 _ (Curve.line ⟨0, 0, 1⟩) (PtObj.p3 ⟨5, 5, 0⟩) ⟨5, 5, 0⟩ 0 1 rfl rfl

theorem parseStep_ok (a b : PtObj) : ∃ r, parseStep a b = Except.ok r := by
  by_cases ha : isP3 a = true
  · cases b with
    | str s =>
      by_cases hs : pyLower s = ("a") ∨ pyLower s = ("arc")
      · exact ⟨(some a, some Cmd.a), by simp only [parseStep, if_pos ha, if_pos hs]⟩
      · exact ⟨(some a, some Cmd.l), by simp only [parseStep, if_pos ha, if_neg hs]⟩
    | tup t => exact ⟨(some a, some Cmd.l), by simp only [parseStep, if_pos ha]⟩
    | p3 p => exact ⟨(some a, some Cmd.l), by simp only [parseStep, if_pos ha]⟩
    | skp id => exact ⟨(some a, some Cmd.l), by simp only [parseStep, if_pos ha]⟩
    | other => exact ⟨(some a, some Cmd.l), by simp only [parseStep, if_pos ha]⟩
  · exact ⟨(none, none), by simp only [parseStep, if_neg ha]⟩

theorem parseScan_ok (l : List (PtObj × PtObj)) :
    ∀ ps cs, ∃ r, parseScan l ps cs = Except.ok r := by
  induction l with
  | nil => intro ps cs; exact ⟨_, rfl⟩
  | cons p rest ih =>
    intro ps cs
    obtain ⟨a, b⟩ := p
    obtain ⟨⟨op, oc⟩, hr⟩ := parseStep_ok a b
    obtain ⟨r, hrec⟩ := ih (ps ++ op.toList) (cs ++ oc.toList)
    exact ⟨r, by unfold parseScan; rw [hr]; exact hrec⟩

/-- C10: the 'pointList item type is invalid' branch of `curveChain`'s parse loop
is unreachable: the `elif` retests `pts[i]` (already a `Point3D`) instead of
`pts[i+1]`, so a non-string element following a point is silently classified as a
line command, and neither the parse step nor the whole parse phase can ever return
that fault. -/
theorem claim_C10 :
    (∀ a b, isP3 a = true → (∀ s, b ≠ PtObj.str s) →
      parseStep a b = Except.ok (some a, some Cmd.l)) ∧
    (∀ a b, parseStep a b ≠ Except.error Fault.invalidItem) ∧
    (∀ pts close, parsePhase pts close ≠ Except.error Fault.invalidItem) := by
  refine ⟨?_, ?_, ?_⟩
  · intro a b ha hb
    cases b with
    | str s => exact absurd rfl (hb s)
    | tup t => simp only [parseStep, if_pos ha]
    | p3 p => simp only [parseStep, if_pos ha]
    | skp id => simp only [parseStep, if_pos ha]
    | other => simp only [parseStep, if_pos ha]
  · intro a b h
    obtain ⟨r, hr⟩ := parseStep_ok a b
    rw [hr] at h
    cases h
  · intro pts close h
    unfold parsePhase at h
    cases hlast : pts.getLast? with
    | none => rw [hlast] at h; cases h
    | some lastItem =>
      rw [hlast] at h
      obtain ⟨⟨ps, cs⟩, hs⟩ := parseScan_ok (pts.zip pts.tail) [] []
      rw [hs] at h
      cases close with
      | none => cases h
      | some c =>
        cases hhead : pts.head? with
        | none => rw [hhead] at h; cases h
        | some first => rw [hhead] at h; cases h

/-- Witness for C10: a `Point3D` followed by an unsupported object parses as a line
command instead of raising. -/
theorem claim_C10_witness :
    parseStep (PtObj.p3 ⟨0, 0, 0⟩) PtObj.other =
      Except.ok (some (PtObj.p3 ⟨0, 0, 0⟩), some Cmd.l) :=
  claim_C10.1 (PtObj.p3 ⟨0, 0, 0⟩) PtObj.other rfl (fun s h => by cases h)

/-- C3: if `close` is not `None`, `curveChain`'s parse appends the first input
point as an implicit final point whose command is taken from `close` (`'a'` when
`close` is `'arc'`/`'a'`, otherwise `'l'`); in particular `close="line"` on points
`[(0,0),(1,0),(1,1)]` yields exactly 3 line segments, and the third segment's end
coincides with the first segment's start. -/
theorem claim_C3 :
    (∀ (pts : List PtObj) (c : String) (ptl0 : List PtObj) (cmds0 : List Cmd) (h : PtObj),
      parsePhase pts none = Except.ok (ptl0, cmds0) → pts.head? = some h →
      parsePhase pts (some c) =
        Except.ok (ptl0 ++ [h],
          cmds0 ++ [if c = ("a") ∨ c = ("arc") then Cmd.a else Cmd.l])) ∧
    (∀ fit : ArcFit,
      curveChain emptySketch
        [PtObj.tup [PyNum.int 0, PyNum.int 0], PtObj.tup [PyNum.int 1, PyNum.int 0],
          PtObj.tup [PyNum.int 1, PyNum.int 1]] (some ("line")) fit =
        CCOut.ok [Curve.line ⟨0, 0, 1⟩, Curve.line ⟨1, 2, 3⟩, Curve.line ⟨2, 4, 5⟩]
          ⟨[⟨⟨0, 0, 0⟩, false⟩, ⟨⟨1, 0, 0⟩, false⟩, ⟨⟨1, 0, 0⟩, false⟩, ⟨⟨1, 1, 0⟩, false⟩,
            ⟨⟨1, 1, 0⟩, false⟩, ⟨⟨0, 0, 0⟩, false⟩], 3,
           [Event.coin 2 1, Event.coin 4 3, Event.coin 5 0]⟩ ∧
      geoOf
          ⟨[⟨⟨0, 0, 0⟩, false⟩, ⟨⟨1, 0, 0⟩, false⟩, ⟨⟨1, 0, 0⟩, false⟩, ⟨⟨1, 1, 0⟩, false⟩,
            ⟨⟨1, 1, 0⟩, false⟩, ⟨⟨0, 0, 0⟩, false⟩], 3,
           [Event.coin 2 1, Event.coin 4 3, Event.coin 5 0]⟩ (SkLine.mk 2 4 5).endPt =
        geoOf
          ⟨[⟨⟨0, 0, 0⟩, false⟩, ⟨⟨1, 0, 0⟩, false⟩, ⟨⟨1, 0, 0⟩, false⟩, ⟨⟨1, 1, 0⟩, false⟩,
            ⟨⟨1, 1, 0⟩, false⟩, ⟨⟨0, 0, 0⟩, false⟩], 3,
           [Event.coin 2 1, Event.coin 4 3, Event.coin 5 0]⟩ (SkLine.mk 0 0 1).startPt) := by
  constructor
  · intro pts c ptl0 cmds0 h hnone hhead
    cases hlast : pts.getLast? with
    | none =>
      simp only [parsePhase, hlast] at hnone
      exact Except.noConfusion hnone
    | some lastItem =>
      cases hscan : parseScan (pts.zip pts.tail) [] [] with
      | error e =>
        simp only [parsePhase, hlast, hscan] at hnone
        exact Except.noConfusion hnone
      | ok pr =>
        obtain ⟨ps, cs⟩ := pr
        simp only [parsePhase, hlast, hscan, Except.ok.injEq, Prod.mk.injEq] at hnone
        simp only [parsePhase, hlast, hscan, hhead, hnone.1, hnone.2]
  · intro fit
    constructor
    · norm_num [curveChain, handleObjectList2Points, tuple2Point3d, toR, parsePhase,
        parseScan, parseStep, isP3, List.zip, emptySketch, pass1Loop, pass1Step, lineFn,
        lineEndpointArg, resolveLinePt, addPoint, point3d, isPointInList, isPointInListAux,
        isEqualTo_eval, distSq, smallNumber, geoOf, setFixed, coinWithPrev,
        arePontsCoincident, addCoin, closingCoin, orderCurveEndsByDistSk_line_p3, pass2Loop,
        pass2Step, List.range_succ, Option.some_ne_none,
        (show ¬(("line") = ("a") ∨ ("line") = ("arc")) by decide)]
    · norm_num [geoOf]

/-- Witness for C3's general clause: closing a two-point chain with `close="arc"`
appends the first point and an arc command. -/
theorem claim_C3_witness :
    parsePhase [PtObj.p3 ⟨0, 0, 0⟩, PtObj.p3 ⟨2, 0, 0⟩] (some ("arc")) =
      Except.ok
        ([PtObj.p3 ⟨0, 0, 0⟩, PtObj.p3 ⟨2, 0, 0⟩, PtObj.p3 ⟨0, 0, 0⟩],
         [Cmd.l, Cmd.a]) := by
  have h := claim_C3.1 [PtObj.p3 ⟨0, 0, 0⟩, PtObj.p3 ⟨2, 0, 0⟩] ("arc")
    [PtObj.p3 ⟨0, 0, 0⟩, PtObj.p3 ⟨2, 0, 0⟩] [Cmd.l] (PtObj.p3 ⟨0, 0, 0⟩)
    (by norm_num [parsePhase, parseScan, parseStep, isP3, List.zip]) rfl
  rw [h]
  norm_num

/-- C5: `curveChain` raises the 'first element must be a line' fault whenever the
first generated command is an arc command, and the fault is raised after parsing
but before any segment is created — the returned sketch is the untouched input
sketch. -/
theorem claim_C5 (σ0 : Sketch) (pointList : List PtObj) (close : Option String)
    (fit : ArcFit) (pts ptl : List PtObj) (cmds : List Cmd)
    (hh : handleObjectList2Points pointList = Except.ok pts)
    (hp : parsePhase pts close = Except.ok (ptl, cmds))
    (hc : cmds.head? = some Cmd.a) :
    curveChain σ0 pointList close fit = CCOut.err Fault.firstMustBeLine σ0 := by
  simp only [curveChain, hh, hp, hc]
  rw [if_pos (show Cmd.a ≠ Cmd.l by decide)]

/-- Witness for C5: an arc marker directly after the first point aborts the build
with the precondition fault and an unchanged sketch. -/
theorem claim_C5_witness :
    curveChain emptySketch
      [PtObj.tup [PyNum.int 0, PyNum.int 0], PtObj.str ("a"),
        PtObj.tup [PyNum.int 1, PyNum.int 0]] none (fun _ _ _ => (⟨0, 0, 0⟩, 0, 0)) =
      CCOut.err Fault.firstMustBeLine emptySketch := by
  refine claim_C5 emptySketch _ none _
    [PtObj.p3 ⟨0, 0, 0⟩, PtObj.str ("a"), PtObj.p3 ⟨1, 0, 0⟩]
    [PtObj.p3 ⟨0, 0, 0⟩, PtObj.p3 ⟨1, 0, 0⟩] [Cmd.a] ?_ ?_ rfl
  · norm_num [handleObjectList2Points, tuple2Point3d, toR]
  · norm_num [parsePhase, parseScan, parseStep, isP3, List.zip,
      (show pyLower ("a") = ("a") ∨ pyLower ("a") = ("arc") by decide)]

/-- C8 (code bug): `curveChain`'s docstring and the spec admit tuples, existing
sketch-point handles and raw `Point3D`s as point elements, with one segment per
consecutive pair; but the parse loop only tests for `Point3D`, so a sketch-point
element is silently dropped: `[(0,0), <sketch point at (5,5)>, (1,1)]` produces a
single line joining the two tuples instead of two segments through the handle. -/
theorem claim_C8 (fit : ArcFit) :
    curveChain ⟨[⟨⟨5, 5, 0⟩, false⟩], 0, []⟩
      [PtObj.tup [PyNum.int 0, PyNum.int 0], PtObj.skp 0,
        PtObj.tup [PyNum.int 1, PyNum.int 1]] none fit =
      CCOut.ok [Curve.line ⟨0, 1, 2⟩]
        ⟨[⟨⟨5, 5, 0⟩, false⟩, ⟨⟨0, 0, 0⟩, false⟩, ⟨⟨1, 1, 0⟩, false⟩], 1, []⟩ := by
  norm_num [curveChain, handleObjectList2Points, tuple2Point3d, toR, parsePhase, parseScan,
    parseStep, isP3, List.zip, pass1Loop, pass1Step, lineFn, lineEndpointArg, resolveLinePt,
    addPoint, point3d, isPointInList, isPointInListAux, isEqualTo_eval, distSq, smallNumber,
    geoOf, setFixed, coinWithPrev, arePontsCoincident, addCoin, closingCoin, pass2Loop,
    pass2Step, List.range_succ]

/-- C4 (code bug): on the non-faulting run
`curveChain([(0,0),(1,0),(0,0),'a',(2,2)], close=None)` the second line's end point
(handle 3, at `(0,0)`) is set `isFixed = True` in the last-command arc branch (the
source fixes `line.endSketchPoint` while recording `endPoint` in `fixedPtList`),
and it is still fixed in the returned sketch — the cleanup pass misses it. -/
theorem claim_C4 :
    curveChain emptySketch
      [PtObj.tup [PyNum.int 0, PyNum.int 0], PtObj.tup [PyNum.int 1, PyNum.int 0],
        PtObj.tup [PyNum.int 0, PyNum.int 0], PtObj.str ("a"),
        PtObj.tup [PyNum.int 2, PyNum.int 2]] none (fun _ _ _ => (⟨0, 0, 0⟩, 1, 1)) =
      CCOut.ok
        [Curve.line ⟨0, 0, 1⟩, Curve.line ⟨1, 2, 3⟩, Curve.arc ⟨2, 3, 4, 5, 1, 1⟩]
        ⟨[⟨⟨0, 0, 0⟩, false⟩, ⟨⟨1, 0, 0⟩, false⟩, ⟨⟨1, 0, 0⟩, false⟩, ⟨⟨0, 0, 0⟩, true⟩,
          ⟨⟨2, 2, 0⟩, false⟩, ⟨⟨0, 0, 0⟩, false⟩], 3,
         [Event.coin 2 1, Event.tangent 2 1]⟩ ∧
    fixedOf
      ⟨[⟨⟨0, 0, 0⟩, false⟩, ⟨⟨1, 0, 0⟩, false⟩, ⟨⟨1, 0, 0⟩, false⟩, ⟨⟨0, 0, 0⟩, true⟩,
        ⟨⟨2, 2, 0⟩, false⟩, ⟨⟨0, 0, 0⟩, false⟩], 3,
       [Event.coin 2 1, Event.tangent 2 1]⟩ 3 = true := by
  constructor
  · norm_num [curveChain, handleObjectList2Points, tuple2Point3d, toR, parsePhase, parseScan,
      parseStep, isP3, List.zip, emptySketch, pass1Loop, pass1Step, lineFn, lineEndpointArg,
      resolveLinePt, addPoint, point3d, isPointInList, isPointInListAux, isEqualTo_eval,
      distSq, smallNumber, geoOf, setFixed, coinWithPrev, arePontsCoincident, addCoin,
      closingCoin, orderCurveEndsByDistSk_line_p3, pass2Loop, pass2Step, List.range_succ,
      arcAfterLineStep, arcAfterLineGuess, resolveEndPoint, pointFn, addArcByThreePoints,
      addTangent, crvEnds,
      (show pyLower ("a") = ("a") ∨ pyLower ("a") = ("arc") by decide),
      (show ¬((none : Option String) = some ("arc") ∨ (none : Option String) = some ("a"))
        by decide)]
  · norm_num [fixedOf]

theorem magnitude_pos (v : Vec) (h : v ≠ (0, 0)) : 0 < magnitude v := by
  unfold magnitude
  rw [Real.sqrt_pos]
  rcases eq_or_ne v.1 0 with h1 | h1
  · have h2 : v.2 ≠ 0 := by
      intro h2
      exact h (Prod.ext h1 h2)
    have := pow_two_pos_of_ne_zero h2
    have := sq_nonneg v.1
    linarith
  · have := pow_two_pos_of_ne_zero h1
    have := sq_nonneg v.2
    linarith

theorem magnitude_scaleVector (v : Vec) (t : ℝ) :
    magnitude (scaleVector v t) = |t| * magnitude v := by
  unfold magnitude scaleVector
  rw [show (v.1 * t) ^ 2 + (v.2 * t) ^ 2 = t ^ 2 * (v.1 ^ 2 + v.2 ^ 2) by ring,
    Real.sqrt_mul (sq_nonneg t), Real.sqrt_sq_eq_abs]

theorem arcAfterLineGuess_spec (σ : Sketch) (sId eId : Nat)
    (h : fromPoints (geoOf σ sId) (geoOf σ eId) ≠ (0, 0)) :
    magnitude (fromPoints (geoOf σ sId) (arcAfterLineGuess σ sId eId)) =
      magnitude (fromPoints (geoOf σ sId) (geoOf σ eId)) + smallNumber * 100 ∧
    ∃ t : ℝ, 1 < t ∧
      fromPoints (geoOf σ sId) (arcAfterLineGuess σ sId eId) =
        scaleVector (fromPoints (geoOf σ sId) (geoOf σ eId)) t := by
  have hm : 0 < magnitude (fromPoints (geoOf σ sId) (geoOf σ eId)) :=
    magnitude_pos _ h
  have hδ : (0 : ℝ) < smallNumber * 100 := by norm_num [smallNumber]
  have hg : fromPoints (geoOf σ sId) (arcAfterLineGuess σ sId eId) =
      scaleVector (fromPoints (geoOf σ sId) (geoOf σ eId))
        ((magnitude (fromPoints (geoOf σ sId) (geoOf σ eId)) + smallNumber * 100) /
          magnitude (fromPoints (geoOf σ sId) (geoOf σ eId))) := by
    simp only [arcAfterLineGuess, addVectorAndPoint, fromPoints, unitVector, scaleVector,
      Prod.mk.injEq]
    constructor
    · ring
    · ring
  have ht : 1 < (magnitude (fromPoints (geoOf σ sId) (geoOf σ eId)) + smallNumber * 100) /
      magnitude (fromPoints (geoOf σ sId) (geoOf σ eId)) :=
    (one_lt_div hm).mpr (lt_add_of_pos_right _ hδ)
  refine ⟨?_, _, ht, hg⟩
  rw [hg, magnitude_scaleVector, abs_of_pos (lt_trans one_pos ht),
    div_mul_cancel₀ _ (ne_of_gt hm)]

theorem pointFn_inv (σ : Sketch) (pt : PtObj) (r : Sketch × Nat)
    (h : pointFn σ pt = Except.ok r) :
    r.1.events = σ.events ∧ r.1.nextCrv = σ.nextCrv ∧ r.1.pts.length = σ.pts.length + 1 := by
  cases pt with
  | p3 p =>
    simp only [pointFn] at h
    cases h
    simp [addPoint]
  | tup t => exact Except.noConfusion h
  | skp id => exact Except.noConfusion h
  | str s => exact Except.noConfusion h
  | other => exact Except.noConfusion h

theorem resolveEndPoint_inv (close : Option String) (ptl : List PtObj) (i : Nat)
    (st : P2) (r : P2 × Nat) (h : resolveEndPoint close ptl i st = Except.ok r) :
    r.1.crvs = st.crvs ∧ r.1.σ.events = st.σ.events ∧ r.1.σ.nextCrv = st.σ.nextCrv ∧
      r.1.lineVar = st.lineVar := by
  unfold resolveEndPoint at h
  by_cases h1 : i = st.crvs.length - 1
  · rw [if_pos h1] at h
    by_cases h2 : close = some ("arc") ∨ close = some ("a")
    · rw [if_pos h2] at h
      cases hc0 : st.crvs.head? with
      | none => simp only [hc0] at h; exact Except.noConfusion h
      | some c0 =>
        simp only [hc0] at h
        cases hce : crvEnds c0 with
        | error e => simp only [hce] at h; exact Except.noConfusion h
        | ok se =>
          obtain ⟨s0, e0⟩ := se
          simp only [hce] at h
          cases h
          exact ⟨rfl, rfl, rfl, rfl⟩
    · rw [if_neg h2] at h
      cases hlast : ptl.getLast? with
      | none => simp only [hlast] at h; exact Except.noConfusion h
      | some lastObj =>
        simp only [hlast] at h
        cases hpf : pointFn st.σ lastObj with
        | error e => simp only [hpf] at h; exact Except.noConfusion h
        | ok r1 =>
          obtain ⟨σ1, endId⟩ := r1
          simp only [hpf] at h
          have hinv := pointFn_inv st.σ lastObj (σ1, endId) hpf
          cases hil : isPointInList σ1 (PtObj.skp endId) st.fixedPts with
          | error e => simp only [hil] at h; exact Except.noConfusion h
          | ok b =>
            simp only [hil] at h
            cases b with
            | true =>
              simp only [if_pos rfl] at h
              cases h
              exact ⟨rfl, hinv.1, hinv.2.1, rfl⟩
            | false =>
              simp only [Bool.false_eq_true, if_false] at h
              cases hlv : st.lineVar with
              | none => simp only [hlv] at h; exact Except.noConfusion h
              | some l =>
                simp only [hlv] at h
                cases h
                exact ⟨rfl, hinv.1, hinv.2.1, rfl⟩
  · rw [if_neg h1] at h
    cases hnx : st.crvs.get? (i + 1) with
    | none => simp only [hnx] at h; exact Except.noConfusion h
    | some c1 =>
      cases c1 with
      | line l =>
        simp only [hnx] at h
        cases h
        exact ⟨rfl, rfl, rfl, rfl⟩
      | arc a =>
        simp only [hnx] at h
        cases hget : ptl.get? (i + 1) with
        | none => simp only [hget] at h; exact Except.noConfusion h
        | some nxt =>
          simp only [hget] at h
          cases hpf : pointFn st.σ nxt with
          | error e => simp only [hpf] at h; exact Except.noConfusion h
          | ok r1 =>
            obtain ⟨σ1, endId⟩ := r1
            simp only [hpf] at h
            have hinv := pointFn_inv st.σ nxt (σ1, endId) hpf
            cases hil : isPointInList σ1 (PtObj.skp endId) st.fixedPts with
            | error e => simp only [hil] at h; exact Except.noConfusion h
            | ok b =>
              simp only [hil] at h
              cases b with
              | true =>
                simp only [if_pos rfl] at h
                cases h
                exact ⟨rfl, hinv.1, hinv.2.1, rfl⟩
              | false =>
                simp only [Bool.false_eq_true, if_false] at h
                cases h
                exact ⟨rfl, hinv.1, hinv.2.1, rfl⟩
      | pending =>
        simp only [hnx] at h
        cases hget : ptl.get? (i + 1) with
        | none => simp only [hget] at h; exact Except.noConfusion h
        | some nxt =>
          simp only [hget] at h
          cases hpf : pointFn st.σ nxt with
          | error e => simp only [hpf] at h; exact Except.noConfusion h
          | ok r1 =>
            obtain ⟨σ1, endId⟩ := r1
            simp only [hpf] at h
            have hinv := pointFn_inv st.σ nxt (σ1, endId) hpf
            cases hil : isPointInList σ1 (PtObj.skp endId) st.fixedPts with
            | error e => simp only [hil] at h; exact Except.noConfusion h
            | ok b =>
              simp only [hil] at h
              cases b with
              | true =>
                simp only [if_pos rfl] at h
                cases h
                exact ⟨rfl, hinv.1, hinv.2.1, rfl⟩
              | false =>
                simp only [Bool.false_eq_true, if_false] at h
                cases h
                exact ⟨rfl, hinv.1, hinv.2.1, rfl⟩

theorem orderCurveEndsByDistSk_le (σ : Sketch) (crv : Curve) (pt : PtObj) (gp : Point3)
    (s e a b : Nat) (hgp : point3d σ pt = Except.ok gp)
    (hce : crvEnds crv = Except.ok (s, e))
    (h : orderCurveEndsByDistSk σ crv pt = Except.ok (a, b)) :
    distanceTo (geoOf σ a) gp ≤ distanceTo (geoOf σ b) gp := by
  unfold orderCurveEndsByDistSk at h
  simp only [hgp, hce] at h
  by_cases hle : distanceTo (geoOf σ s) gp ≤ distanceTo (geoOf σ e) gp
  · rw [if_pos hle] at h
    cases h
    exact hle
  · rw [if_neg hle] at h
    cases h
    exact (not_le.mp hle).le

/-- C1: in `curveChain`'s pass 2, for an arc command whose preceding curve is a
line, the new arc's start point is the line endpoint nearer to the arc's interior
input point (the first point returned by `orderCurveEndsByDist`); the middle guess
point fed to the three-point arc constructor lies on the line's direction at
distance `lineLength + 100*smallNumber` from the line's far endpoint — a positive
multiple (greater than 1) of the line vector from the far endpoint, hence collinear
with the line and just beyond the near endpoint; and a `Tangent` constraint is
emitted between the new arc and that line. -/
theorem claim_C1 (fit : ArcFit) (close : Option String) (ptl : List PtObj) (i : Nat)
    (l : SkLine) (st st' : P2) (ipt : PtObj) (gp : Point3) (nearId farId : Nat)
    (hi : i < st.crvs.length)
    (hipos : 0 < i)
    (hpend : st.crvs.get? i = some Curve.pending)
    (hprev : st.crvs.get? (i - 1) = some (Curve.line l))
    (hipt : ptl.get? i = some ipt)
    (hgp : point3d st.σ ipt = Except.ok gp)
    (horder : orderCurveEndsByDistSk st.σ (Curve.line l) ipt = Except.ok (nearId, farId))
    (hvne : fromPoints (geoOf st.σ farId) (geoOf st.σ nearId) ≠ (0, 0))
    (hstep : arcAfterLineStep fit close ptl i l st = Except.ok st') :
    pass2Step fit close ptl st i = arcAfterLineStep fit close ptl i l st ∧
    ∃ a : SkArc,
      st'.crvs.get? i = some (Curve.arc a) ∧
      a.startPt = nearId ∧
      distanceTo (geoOf st.σ a.startPt) gp ≤ distanceTo (geoOf st.σ farId) gp ∧
      st'.σ.events = st.σ.events ++ [Event.tangent a.aid l.lid] ∧
      magnitude (fromPoints (geoOf st.σ farId) (arcAfterLineGuess st.σ farId nearId)) =
        magnitude (fromPoints (geoOf st.σ farId) (geoOf st.σ nearId)) +
          smallNumber * 100 ∧
      ∃ t : ℝ, 1 < t ∧
        fromPoints (geoOf st.σ farId) (arcAfterLineGuess st.σ farId nearId) =
          scaleVector (fromPoints (geoOf st.σ farId) (geoOf st.σ nearId)) t := by
  refine ⟨by simp only [pass2Step, hpend, hprev, if_pos hipos], ?_⟩
  simp only [arcAfterLineStep, hipt] at hstep
  rw [show ({ st with lineVar := some l } : P2).σ = st.σ from rfl] at hstep
  rw [horder] at hstep
  cases hres : resolveEndPoint close ptl i { st with lineVar := some l } with
  | error e =>
    rw [hres] at hstep
    exact Except.noConfusion hstep
  | ok r =>
    obtain ⟨st2, endId⟩ := r
    simp only [hres] at hstep
    have hinv := resolveEndPoint_inv close ptl i { st with lineVar := some l }
      (st2, endId) hres
    cases hstep
    refine ⟨(addArcByThreePoints fit st2.σ nearId
        (arcAfterLineGuess st.σ farId nearId) endId).2, ?_, ?_, ?_, ?_, ?_, ?_⟩
    · have hlen : i < st2.crvs.length := by
        rw [show st2.crvs = ({ st with lineVar := some l } : P2).crvs from hinv.1]
        exact hi
      exact List.get?_set_eq_of_lt _ hlen
    · rfl
    · exact orderCurveEndsByDistSk_le st.σ (Curve.line l) ipt gp l.startPt l.endPt
        nearId farId hgp rfl horder
    · simp only [addTangent, addArcByThreePoints]
      rw [hinv.2.1]
    · exact (arcAfterLineGuess_spec st.σ farId nearId hvne).1
    · exact (arcAfterLineGuess_spec st.σ farId nearId hvne).2

/-- Witness for C1: the chain `[(0,0),(10,0),'a',(20,10)]` at its arc step — the
arc starts at the line end `(10,0)` (handle 1), the tangent constraint against the
line is emitted, and the guess point lies on the line's direction beyond the near
endpoint at distance `lineLength + 100*smallNumber` from `(0,0)`. -/
theorem claim_C1_witness :
    pass2Step fitConst none ptlC1 stC1 1 = arcAfterLineStep fitConst none ptlC1 1 ⟨0, 0, 1⟩ stC1 ∧
    ∃ a : SkArc,
      stC1'.crvs.get? 1 = some (Curve.arc a) ∧
      a.startPt = 1 ∧
      distanceTo (geoOf stC1.σ a.startPt) ⟨10, 0, 0⟩ ≤
        distanceTo (geoOf stC1.σ 0) ⟨10, 0, 0⟩ ∧
      stC1'.σ.events = stC1.σ.events ++ [Event.tangent a.aid 0] ∧
      magnitude (fromPoints (geoOf stC1.σ 0) (arcAfterLineGuess stC1.σ 0 1)) =
        magnitude (fromPoints (geoOf stC1.σ 0) (geoOf stC1.σ 1)) + smallNumber * 100 ∧
      ∃ t : ℝ, 1 < t ∧
        fromPoints (geoOf stC1.σ 0) (arcAfterLineGuess stC1.σ 0 1) =
          scaleVector (fromPoints (geoOf stC1.σ 0) (geoOf stC1.σ 1)) t := by
  refine claim_C1 fitConst none ptlC1 1 ⟨0, 0, 1⟩ stC1 stC1' (PtObj.p3 ⟨10, 0, 0⟩)
    ⟨10, 0, 0⟩ 1 0 ?_ (by norm_num) rfl rfl rfl rfl ?_ ?_ ?_
  · norm_num [stC1]
  · norm_num [orderCurveEndsByDistSk_line_p3, stC1, sigC1, geoOf, distSq]
  · norm_num [fromPoints, geoOf, stC1, sigC1, Prod.mk.injEq]
  · norm_num [arcAfterLineStep, stC1, sigC1, ptlC1, stC1', fitConst, resolveEndPoint,
      pointFn, addPoint, isPointInList, isPointInListAux, isEqualTo_eval, distSq,
      smallNumber, geoOf, setFixed, addArcByThreePoints, addTangent,
      orderCurveEndsByDistSk_line_p3, point3d, crvEnds,
      (show ¬((none : Option String) = some ("arc") ∨ (none : Option String) = some ("a"))
        by decide)]

/-- C2: in `curveChain`'s pass 2, for an arc command whose preceding curve is an
arc, the reflex flag is set exactly when `prevLength/(2*pi*prevRadius) > 0.5` (with
the source's `_pi` literal); two candidate guess points are the previous arc's
near-to-interior endpoint offset by plus/minus `100*smallNumber` along the
perpendicular unit vector of the centre-to-end chord; the plus candidate is chosen
exactly under `(reflex ∧ A1 < A) ∨ (¬reflex ∧ A1 > A)` where `A` is the swept angle
between the centre-to-start and centre-to-end chords and `A1` the swept angle
between the centre-to-start chord and the chord to the plus candidate, otherwise
the minus candidate; and a `Tangent` constraint is emitted between the new arc and
the previous arc. -/
theorem claim_C2 (fit : ArcFit) (close : Option String) (ptl : List PtObj) (i : Nat)
    (a : SkArc) (st st' : P2) (ipt : PtObj) (gp : Point3) (prevEndPt prevStartPt : Nat)
    (hi : i < st.crvs.length)
    (hipos : 0 < i)
    (hpend : st.crvs.get? i = some Curve.pending)
    (hprev : st.crvs.get? (i - 1) = some (Curve.arc a))
    (hipt : ptl.get? i = some ipt)
    (hgp : point3d st.σ ipt = Except.ok gp)
    (horder : orderCurveEndsByDistSk st.σ (Curve.arc a) ipt =
      Except.ok (prevEndPt, prevStartPt))
    (hstep : arcAfterArcStep fit close ptl i a st = Except.ok st') :
    pass2Step fit close ptl st i = arcAfterArcStep fit close ptl i a st ∧
    (revFlag a = true ↔ a.length / (2 * piLit * a.radius) > 0.5) ∧
    (let startVect := fromPoints (geoOf st.σ a.centerPt) (geoOf st.σ prevStartPt)
     let endVect := fromPoints (geoOf st.σ a.centerPt) (geoOf st.σ prevEndPt)
     let g1 := addVectorAndPoint
       (scaleVector (perpendicularUnitVector endVect) (smallNumber * 100))
       (geoOf st.σ prevEndPt)
     let g2 := addVectorAndPoint
       (scaleVector (scaleVector (perpendicularUnitVector endVect) (-1))
         (smallNumber * 100))
       (geoOf st.σ prevEndPt)
     let A := sweptAngle startVect endVect
     let A1 := sweptAngle startVect (fromPoints (geoOf st.σ a.centerPt) g1)
     arcAfterArcGuess st.σ a prevEndPt prevStartPt =
       if (revFlag a = true ∧ A1 < A) ∨ (revFlag a = false ∧ A1 > A) then g1 else g2) ∧
    ∃ b : SkArc,
      st'.crvs.get? i = some (Curve.arc b) ∧
      b.startPt = prevEndPt ∧
      distanceTo (geoOf st.σ b.startPt) gp ≤ distanceTo (geoOf st.σ prevStartPt) gp ∧
      st'.σ.events = st.σ.events ++ [Event.tangent b.aid a.aid] := by
  have hdiv : a.length / (piLit * a.radius * 2) = a.length / (2 * piLit * a.radius) := by
    ring_nf
  refine ⟨by simp only [pass2Step, hpend, hprev, if_pos hipos], ?_, ?_, ?_⟩
  · unfold revFlag
    simp only [hdiv]
    by_cases h : a.length / (2 * piLit * a.radius) > 0.5
    · simp [h]
    · simp [h]
  · intro startVect endVect g1 g2 A A1
    simp only [arcAfterArcGuess]
    by_cases hrev : revFlag a = true
    · rw [if_pos hrev]
      by_cases hA : A1 < A
      · rw [if_pos hA, if_pos (Or.inl ⟨hrev, hA⟩)]
      · rw [if_neg hA, if_neg ?_]
        rintro (⟨_, hA1⟩ | ⟨hfalse, _⟩)
        · exact hA hA1
        · rw [hrev] at hfalse
          cases hfalse
    · rw [if_neg hrev]
      have hrev' : revFlag a = false := by
        cases hb : revFlag a with
        | false => rfl
        | true => exact absurd hb hrev
      by_cases hA : A1 > A
      · rw [if_pos hA, if_pos (Or.inr ⟨hrev', hA⟩)]
      · rw [if_neg hA, if_neg ?_]
        rintro (⟨htrue, _⟩ | ⟨_, hA1⟩)
        · exact hrev htrue
        · exact hA hA1
  · simp only [arcAfterArcStep, hipt] at hstep
    rw [horder] at hstep
    cases hres : resolveEndPoint close ptl i st with
    | error e =>
      rw [hres] at hstep
      exact Except.noConfusion hstep
    | ok r =>
      obtain ⟨st2, endId⟩ := r
      simp only [hres] at hstep
      have hinv := resolveEndPoint_inv close ptl i st (st2, endId) hres
      cases hstep
      refine ⟨(addArcByThreePoints fit st2.σ prevEndPt
          (arcAfterArcGuess st.σ a prevEndPt prevStartPt) endId).2, ?_, ?_, ?_, ?_⟩
      · have hlen : i < st2.crvs.length := by
          rw [hinv.1]
          exact hi
        exact List.get?_set_eq_of_lt _ hlen
      · rfl
      · exact orderCurveEndsByDistSk_le st.σ (Curve.arc a) ipt gp a.startPt a.endPt
          prevEndPt prevStartPt hgp rfl horder
      · simp only [addTangent, addArcByThreePoints]
        rw [hinv.2.1]

/-- Witness for C2: a quarter-circle arc from `(1,0)` to `(0,1)` with centre
`(0,0)` followed by another arc command — the reflex test, the candidate
selection rule, the new arc's start at the near endpoint, and the emitted tangent
constraint, all at this concrete configuration. -/
theorem claim_C2_witness :
    pass2Step fitConst none ptlC2 stC2 1 = arcAfterArcStep fitConst none ptlC2 1 aC2 stC2 ∧
    (revFlag aC2 = true ↔ aC2.length / (2 * piLit * aC2.radius) > 0.5) ∧
    (let startVect := fromPoints (geoOf stC2.σ aC2.centerPt) (geoOf stC2.σ 0)
     let endVect := fromPoints (geoOf stC2.σ aC2.centerPt) (geoOf stC2.σ 1)
     let g1 := addVectorAndPoint
       (scaleVector (perpendicularUnitVector endVect) (smallNumber * 100))
       (geoOf stC2.σ 1)
     let g2 := addVectorAndPoint
       (scaleVector (scaleVector (perpendicularUnitVector endVect) (-1))
         (smallNumber * 100))
       (geoOf stC2.σ 1)
     let A := sweptAngle startVect endVect
     let A1 := sweptAngle startVect (fromPoints (geoOf stC2.σ aC2.centerPt) g1)
     arcAfterArcGuess stC2.σ aC2 1 0 =
       if (revFlag aC2 = true ∧ A1 < A) ∨ (revFlag aC2 = false ∧ A1 > A) then g1
       else g2) ∧
    ∃ b : SkArc,
      stC2'.crvs.get? 1 = some (Curve.arc b) ∧
      b.startPt = 1 ∧
      distanceTo (geoOf stC2.σ b.startPt) ⟨0, 1, 0⟩ ≤
        distanceTo (geoOf stC2.σ 0) ⟨0, 1, 0⟩ ∧
      stC2'.σ.events = stC2.σ.events ++ [Event.tangent b.aid aC2.aid] := by
  refine claim_C2 fitConst none ptlC2 1 aC2 stC2 stC2' (PtObj.p3 ⟨0, 1, 0⟩) ⟨0, 1, 0⟩
    1 0 ?_ (by norm_num) rfl rfl ?_ rfl ?_ ?_
  · norm_num [stC2]
  · norm_num [ptlC2]
  · norm_num [orderCurveEndsByDistSk_arc_p3, stC2, sigC2, aC2, geoOf, distSq]
  · norm_num [arcAfterArcStep, stC2, sigC2, aC2, ptlC2, stC2', fitConst, resolveEndPoint,
      pointFn, addPoint, isPointInList, isPointInListAux, isEqualTo_eval, distSq,
      smallNumber, geoOf, setFixed, addArcByThreePoints, addTangent,
      orderCurveEndsByDistSk_arc_p3, point3d, crvEnds,
      (show ¬((none : Option String) = some ("arc") ∨ (none : Option String) = some ("a"))
        by decide)]

end EZ
